import Mathlib

/-!
Verification of the phase-workflow engine of the Artist repository.

The definitions below are a shallow embedding of the Python sources:
  src/workflow/models/drawing_phase.py
  src/workflow/models/stroke_intent.py
  src/workflow/models/workflow_state.py
  src/workflow/core/checkpoint_manager.py
  src/workflow/core/decision_logger.py
  src/workflow/core/workflow_executor.py
  src/motor/core/canvas.py, src/motor/core/stroke.py

Conventions of the embedding:
* Python floats are modelled as rationals (`ℚ`); every float literal in the
  sources (0.4, 0.7, 1.0, ...) is exact in binary-independent arithmetic at the
  granularity the claims use, so `ℚ` is faithful for the comparisons involved.
* `datetime.now()` values and generated identifiers are external inputs; they
  are threaded through the operations as an explicit `now : Nat` clock
  (identifiers such as `f"checkpoint_{datetime.now().timestamp()}"` become
  `"checkpoint_" ++ toString now`).
* Python dicts with string keys are association lists.
* The drawing payload of a `Stroke` (points, stroke type, tool, layer, color)
  and of a `Canvas` is opaque to the workflow subsystem (the spec treats it as
  an opaque serializable value at the boundary); it is carried as plain data
  fields and only copied, never inspected, exactly as in the sources.
* Mutable objects are passed and returned explicitly; a Python method that
  mutates `self` becomes a function returning the updated value.  Reference
  sharing of nested `metadata` dicts (relevant to claim C4 only) is modelled
  separately in the `RefModel` namespace with an explicit heap.
-/

namespace Artist

/-- The five phases, src/workflow/models/drawing_phase.py lines 13-24. -/
inductive DrawingPhase where
  | sketch
  | refinement
  | stylization
  | rendering
  | complete
deriving DecidableEq, Repr

/-- Stroke intents, src/workflow/models/stroke_intent.py lines 15-27. -/
inductive StrokeIntent where
  | gesture
  | contour
  | detail
  | construction
  | shading
  | cleanup
deriving DecidableEq, Repr

/-- `PhaseTransitionValidator.VALID_TRANSITIONS`, drawing_phase.py lines 77-101
(the sets are kept in the order they are written in the source). -/
def VALID_TRANSITIONS : DrawingPhase → List DrawingPhase
  | .sketch => [.sketch, .refinement]
  | .refinement => [.sketch, .refinement, .stylization]
  | .stylization => [.refinement, .stylization, .rendering]
  | .rendering => [.stylization, .rendering, .complete]
  | .complete => [.complete, .rendering]

/-- `PhaseTransitionValidator.is_valid_transition`, drawing_phase.py
lines 103-115: membership of the target in the table entry of the source. -/
def is_valid_transition (from_phase to_phase : DrawingPhase) : Bool :=
  (VALID_TRANSITIONS from_phase).contains to_phase

/-- `StrokeIntentHelper.PRIMARY_INTENT`, stroke_intent.py lines 109-114
(`dict.get` on the table: COMPLETE is absent, hence `none`). -/
def PRIMARY_INTENT : DrawingPhase → Option StrokeIntent
  | .sketch => some .gesture
  | .refinement => some .contour
  | .stylization => some .contour
  | .rendering => some .detail
  | .complete => none

/-- `PhaseTransition`, drawing_phase.py lines 27-45.  Timestamps are the
external clock values (see the header). -/
structure PhaseTransition where
  from_phase : DrawingPhase
  to_phase : DrawingPhase
  timestamp : Nat
  reason : String
  metrics : List (String × ℚ)
  confidence : ℚ
deriving DecidableEq, Repr

/-- `WorkflowState`, workflow_state.py lines 15-40. -/
structure WorkflowState where
  current_phase : DrawingPhase
  phase_history : List PhaseTransition
  phase_start_time : Nat
  iteration_in_phase : Nat
  total_strokes : Nat
  phase_stroke_count : Nat
  workflow_id : String
  metadata : List (String × String)
deriving DecidableEq, Repr

/-- The freshly constructed `WorkflowState()` of workflow_state.py lines 33-40:
all counters zero, empty history, phase SKETCH; `workflow_id` and
`phase_start_time` come from the external clock. -/
def WorkflowState.init (now : Nat) : WorkflowState :=
  { current_phase := .sketch
    phase_history := []
    phase_start_time := now
    iteration_in_phase := 0
    total_strokes := 0
    phase_stroke_count := 0
    workflow_id := "workflow_" ++ toString now
    metadata := [] }

/-- `WorkflowState.transition_to_phase`, workflow_state.py lines 42-90.
Returns the Python return value paired with the state after the call. -/
def WorkflowState.transition_to_phase (s : WorkflowState) (new_phase : DrawingPhase)
    (reason : String) (metrics : List (String × ℚ)) (confidence : ℚ) (now : Nat) :
    Bool × WorkflowState :=
  if ¬ is_valid_transition s.current_phase new_phase then
    (false, s)
  else
    let transition : PhaseTransition :=
      { from_phase := s.current_phase
        to_phase := new_phase
        timestamp := now
        reason := reason
        metrics := metrics
        confidence := confidence }
    (true,
      { s with
        phase_history := s.phase_history ++ [transition]
        current_phase := new_phase
        phase_start_time := now
        iteration_in_phase :=
          if new_phase = transition.from_phase then s.iteration_in_phase + 1 else 0
        phase_stroke_count := 0 })

/-- `WorkflowState.record_stroke`, workflow_state.py lines 92-95. -/
def WorkflowState.record_stroke (s : WorkflowState) : WorkflowState :=
  { s with
    total_strokes := s.total_strokes + 1
    phase_stroke_count := s.phase_stroke_count + 1 }

/-- `WorkflowState.is_phase_complete`, workflow_state.py lines 167-174. -/
def WorkflowState.is_phase_complete (s : WorkflowState) : Bool :=
  s.current_phase = DrawingPhase.complete

/-- `StrokeMetadata`, stroke_intent.py lines 30-52: the workflow side-channel
attached to a stroke's `metadata["workflow"]` entry. -/
structure StrokeMetadata where
  intent : StrokeIntent
  phase : DrawingPhase
  purpose : String
  task_id : Option String
  action_id : Option String
  confidence : ℚ
  refinement_pass : Nat
  evaluation_score : Option ℚ
deriving DecidableEq, Repr

/-- `Stroke`, src/motor/core/stroke.py lines 53-66.  The drawing payload
(points, stroke type, tool id, layer id, color) is opaque to the workflow
subsystem and carried as the single `payload` field; the `metadata` dict is
split into the two keys the workflow writes (`"workflow"`, `"stroke_id"`,
workflow_executor.py lines 155-158) plus the remaining caller-owned entries. -/
structure Stroke where
  payload : String
  workflow : Option StrokeMetadata
  stroke_id : Option String
  meta_rest : List (String × String)
deriving DecidableEq, Repr

/-- The dictionary produced by `Stroke.to_dict`, stroke.py lines 171-190
(all fields are copied into the dict, value for value at this level; the
reference sharing of the nested `metadata` dict is treated in `RefModel`). -/
structure StrokeDict where
  payload : String
  workflow : Option StrokeMetadata
  stroke_id : Option String
  meta_rest : List (String × String)
deriving DecidableEq, Repr

/-- `Stroke.to_dict`, stroke.py lines 171-190. -/
def Stroke.to_dict (s : Stroke) : StrokeDict :=
  { payload := s.payload
    workflow := s.workflow
    stroke_id := s.stroke_id
    meta_rest := s.meta_rest }

/-- `Stroke.from_dict`, stroke.py lines 192-205. -/
def Stroke.from_dict (d : StrokeDict) : Stroke :=
  { payload := d.payload
    workflow := d.workflow
    stroke_id := d.stroke_id
    meta_rest := d.meta_rest }

/-- `Layer`, src/motor/core/canvas.py lines 25-40. -/
structure Layer where
  name : String
  layer_id : String
  visible : Bool
  locked : Bool
  opacity : ℚ
  blend_mode : String
  parent_id : Option String
  metadata : List (String × String)
deriving DecidableEq, Repr

/-- `Canvas`, canvas.py lines 64-80. -/
structure Canvas where
  width : Nat
  height : Nat
  canvas_id : String
  name : String
  background_color : Nat × Nat × Nat × Nat
  dpi : Nat
  layers : List Layer
  active_layer_id : Option String
  metadata : List (String × String)
deriving DecidableEq, Repr

/-- The dictionary produced by `Canvas.to_dict`, canvas.py lines 181-193
(layers serialized per `Layer.to_dict`, lines 42-53; at this value level the
layer dicts keep the same fields). -/
structure CanvasDict where
  width : Nat
  height : Nat
  canvas_id : String
  name : String
  background_color : Nat × Nat × Nat × Nat
  dpi : Nat
  layers : List Layer
  active_layer_id : Option String
  metadata : List (String × String)
deriving DecidableEq, Repr

/-- `Canvas.to_dict`, canvas.py lines 181-193. -/
def Canvas.to_dict (c : Canvas) : CanvasDict :=
  { width := c.width
    height := c.height
    canvas_id := c.canvas_id
    name := c.name
    background_color := c.background_color
    dpi := c.dpi
    layers := c.layers
    active_layer_id := c.active_layer_id
    metadata := c.metadata }

/-- `Canvas.from_dict`, canvas.py lines 195-201 (for the canvases the executor
handles the layer list is never empty, so `__post_init__` adds nothing). -/
def Canvas.from_dict (d : CanvasDict) : Canvas :=
  { width := d.width
    height := d.height
    canvas_id := d.canvas_id
    name := d.name
    background_color := d.background_color
    dpi := d.dpi
    layers := d.layers
    active_layer_id := d.active_layer_id
    metadata := d.metadata }

/-- `CanvasCheckpoint`, src/workflow/core/checkpoint_manager.py lines 18-41. -/
structure CanvasCheckpoint where
  checkpoint_id : String
  timestamp : Nat
  phase : DrawingPhase
  canvas_state : CanvasDict
  stroke_history : List StrokeDict
  metadata : List (String × String)
  description : String
deriving DecidableEq, Repr

/-- `CheckpointManager`, checkpoint_manager.py lines 64-81. -/
structure CheckpointManager where
  checkpoints : List CanvasCheckpoint
  max_checkpoints : Nat
  current_checkpoint_index : Int
deriving DecidableEq, Repr

/-- `CheckpointManager.__init__`, checkpoint_manager.py lines 72-81. -/
def CheckpointManager.init (max_checkpoints : Nat) : CheckpointManager :=
  { checkpoints := []
    max_checkpoints := max_checkpoints
    current_checkpoint_index := -1 }

/-- `CheckpointManager.create_checkpoint`, checkpoint_manager.py lines 83-129:
serializes canvas and strokes, appends the checkpoint, and pops the oldest one
when the count exceeds `max_checkpoints`. -/
def CheckpointManager.create_checkpoint (m : CheckpointManager) (canvas : Canvas)
    (phase : DrawingPhase) (stroke_history : List Stroke) (description : String)
    (metadata : List (String × String)) (now : Nat) :
    CanvasCheckpoint × CheckpointManager :=
  let checkpoint : CanvasCheckpoint :=
    { checkpoint_id := "checkpoint_" ++ toString now
      timestamp := now
      phase := phase
      canvas_state := canvas.to_dict
      stroke_history := stroke_history.map Stroke.to_dict
      metadata := metadata
      description := description }
  let cps := m.checkpoints ++ [checkpoint]
  let idx : Int := (cps.length : Int) - 1
  if cps.length > m.max_checkpoints then
    (checkpoint,
      { m with checkpoints := cps.tail, current_checkpoint_index := idx - 1 })
  else
    (checkpoint, { m with checkpoints := cps, current_checkpoint_index := idx })

/-- `CheckpointManager.get_checkpoint`, checkpoint_manager.py lines 131-144:
linear search returning the first checkpoint with the given id. -/
def CheckpointManager.get_checkpoint (m : CheckpointManager) (checkpoint_id : String) :
    Option CanvasCheckpoint :=
  m.checkpoints.find? (fun cp => cp.checkpoint_id == checkpoint_id)

/-- `CheckpointManager.get_checkpoints_by_phase`, checkpoint_manager.py
lines 157-167. -/
def CheckpointManager.get_checkpoints_by_phase (m : CheckpointManager)
    (phase : DrawingPhase) : List CanvasCheckpoint :=
  m.checkpoints.filter (fun cp => cp.phase == phase)

/-- `CheckpointManager.restore_checkpoint`, checkpoint_manager.py
lines 169-179. -/
def CheckpointManager.restore_checkpoint (_m : CheckpointManager)
    (checkpoint : CanvasCheckpoint) : Canvas :=
  Canvas.from_dict checkpoint.canvas_state

/-- The `for i, checkpoint in enumerate(self.checkpoints)` search of
checkpoint_manager.py lines 191-194: the first checkpoint with the given id
together with its index. -/
def findCheckpointWithIdx (checkpoints : List CanvasCheckpoint)
    (checkpoint_id : String) : Option (Nat × CanvasCheckpoint) :=
  match checkpoints with
  | [] => none
  | cp :: rest =>
    if cp.checkpoint_id == checkpoint_id then some (0, cp)
    else (findCheckpointWithIdx rest checkpoint_id).map (fun ic => (ic.1 + 1, ic.2))

/-- `CheckpointManager.rollback_to_checkpoint`, checkpoint_manager.py
lines 181-195: finds the first checkpoint with the id, records its index, and
returns it; when no checkpoint matches, nothing is changed. -/
def CheckpointManager.rollback_to_checkpoint (m : CheckpointManager)
    (checkpoint_id : String) : Option CanvasCheckpoint × CheckpointManager :=
  match findCheckpointWithIdx m.checkpoints checkpoint_id with
  | some (i, checkpoint) =>
    (some checkpoint, { m with current_checkpoint_index := (i : Int) })
  | none => (none, m)

/-- `CheckpointManager.rollback_to_phase`, checkpoint_manager.py
lines 197-211. -/
def CheckpointManager.rollback_to_phase (m : CheckpointManager)
    (phase : DrawingPhase) : Option CanvasCheckpoint × CheckpointManager :=
  let phase_checkpoints := m.get_checkpoints_by_phase phase
  match phase_checkpoints.getLast? with
  | some checkpoint => m.rollback_to_checkpoint checkpoint.checkpoint_id
  | none => (none, m)

/-- `CheckpointManager.get_stroke_history_at_checkpoint`, checkpoint_manager.py
lines 213-226. -/
def CheckpointManager.get_stroke_history_at_checkpoint (_m : CheckpointManager)
    (checkpoint : CanvasCheckpoint) : List Stroke :=
  checkpoint.stroke_history.map Stroke.from_dict

/-- `CheckpointManager.get_checkpoint_count`, checkpoint_manager.py
lines 233-235. -/
def CheckpointManager.get_checkpoint_count (m : CheckpointManager) : Nat :=
  m.checkpoints.length

/-- `StrokeDecision`, src/workflow/core/decision_logger.py lines 16-44.
`pre_evaluation`/`post_evaluation` dicts may be absent (`None`). -/
structure StrokeDecision where
  stroke_id : String
  timestamp : Nat
  intent : StrokeIntent
  phase : DrawingPhase
  task_id : Option String
  action_id : Option String
  purpose : String
  pre_evaluation : Option (List (String × ℚ))
  post_evaluation : Option (List (String × ℚ))
  stroke_data : Option StrokeDict
  metadata : List (String × String)
deriving DecidableEq, Repr

/-- Python truthiness of an optional dict: `None` and `{}` are falsy
(`if self.pre_evaluation and self.post_evaluation`, decision_logger.py
line 53). -/
def dictTruthy (d : Option (List (String × ℚ))) : Bool :=
  match d with
  | some (_ :: _) => true
  | _ => false

/-- Mean of a metric dict's values, as `sum(...) / len(...)` computes it. -/
def meanValues (metrics : List (String × ℚ)) : ℚ :=
  (metrics.map Prod.snd).sum / (metrics.length : ℚ)

/-- `StrokeDecision.get_improvement_score`, decision_logger.py lines 46-58. -/
def StrokeDecision.get_improvement_score (s : StrokeDecision) : Option ℚ :=
  if dictTruthy s.pre_evaluation ∧ dictTruthy s.post_evaluation then
    some (meanValues (s.post_evaluation.getD []) - meanValues (s.pre_evaluation.getD []))
  else
    none

/-- `PhaseDecisionLog`, decision_logger.py lines 86-108. -/
structure PhaseDecisionLog where
  phase : DrawingPhase
  start_time : Nat
  end_time : Option Nat
  strokes : List StrokeDecision
  phase_evaluations : List (Nat × List (String × ℚ))
  transition_reason : String
  total_improvement : Option ℚ
  metadata : List (String × String)
deriving DecidableEq, Repr

/-- `PhaseDecisionLog.close_phase`, decision_logger.py lines 121-134. -/
def PhaseDecisionLog.close_phase (l : PhaseDecisionLog) (reason : String)
    (now : Nat) : PhaseDecisionLog :=
  let improvements := l.strokes.filterMap StrokeDecision.get_improvement_score
  { l with
    end_time := some now
    transition_reason := reason
    total_improvement :=
      if l.strokes ≠ [] ∧ improvements ≠ [] then
        some (improvements.sum / (improvements.length : ℚ))
      else
        l.total_improvement }

/-- `DecisionLogger`, decision_logger.py lines 201-212.  In the source
`current_log` is a reference that, at every reachable state, is either `None`
(exactly when `phase_logs` is empty) or points at the last element of
`phase_logs` (`start_phase` appends the log it assigns to `current_log`, and
nothing ever removes logs or reassigns `current_log` elsewhere); the embedding
therefore keeps only the list and treats its last element as the current log. -/
structure DecisionLogger where
  phase_logs : List PhaseDecisionLog
deriving DecidableEq, Repr

/-- `DecisionLogger.__init__`, decision_logger.py lines 209-212. -/
def DecisionLogger.init : DecisionLogger := { phase_logs := [] }

/-- Replace the last element of a list by its image under `f`. -/
def modifyLast (f : PhaseDecisionLog → PhaseDecisionLog) :
    List PhaseDecisionLog → List PhaseDecisionLog
  | [] => []
  | [l] => [f l]
  | l :: rest => l :: modifyLast f rest

/-- Mutation of the last (current) phase log in place, as Python's aliasing of
`current_log` to `phase_logs[-1]` performs it (the empty case corresponds to
`current_log is None`, where the callers guard and do nothing). -/
def DecisionLogger.modifyCurrent (dl : DecisionLogger)
    (f : PhaseDecisionLog → PhaseDecisionLog) : DecisionLogger :=
  { phase_logs := modifyLast f dl.phase_logs }

/-- `DecisionLogger.start_phase`, decision_logger.py lines 214-232: closes the
still-open current log (if any) with reason "Phase transition", then appends a
fresh log for `phase`. -/
def DecisionLogger.start_phase (dl : DecisionLogger) (phase : DrawingPhase)
    (metadata : List (String × String)) (now : Nat) : DecisionLogger :=
  let dl' :=
    match dl.phase_logs.getLast? with
    | some l =>
      if l.end_time = none then
        dl.modifyCurrent (fun cur => cur.close_phase "Phase transition" now)
      else dl
    | none => dl
  { phase_logs :=
      dl'.phase_logs ++
        [{ phase := phase
           start_time := now
           end_time := none
           strokes := []
           phase_evaluations := []
           transition_reason := ""
           total_improvement := none
           metadata := metadata }] }

/-- `DecisionLogger.log_stroke`, decision_logger.py lines 234-279: opens a log
for `phase` when none is open, then appends the stroke decision to the current
log. -/
def DecisionLogger.log_stroke (dl : DecisionLogger) (stroke_id : String)
    (intent : StrokeIntent) (phase : DrawingPhase) (purpose : String)
    (task_id action_id : Option String)
    (pre_evaluation post_evaluation : Option (List (String × ℚ)))
    (stroke_data : Option StrokeDict) (metadata : List (String × String))
    (now : Nat) : DecisionLogger :=
  let dl' := if dl.phase_logs.isEmpty then dl.start_phase phase [] now else dl
  let decision : StrokeDecision :=
    { stroke_id := stroke_id
      timestamp := now
      intent := intent
      phase := phase
      task_id := task_id
      action_id := action_id
      purpose := purpose
      pre_evaluation := pre_evaluation
      post_evaluation := post_evaluation
      stroke_data := stroke_data
      metadata := metadata }
  dl'.modifyCurrent (fun cur => { cur with strokes := cur.strokes ++ [decision] })

/-- `DecisionLogger.log_evaluation`, decision_logger.py lines 281-289 together
with `PhaseDecisionLog.add_evaluation`, lines 114-119. -/
def DecisionLogger.log_evaluation (dl : DecisionLogger)
    (evaluation : List (String × ℚ)) (now : Nat) : DecisionLogger :=
  dl.modifyCurrent
    (fun cur =>
      { cur with phase_evaluations := cur.phase_evaluations ++ [(now, evaluation)] })

/-- `DecisionLogger.close_phase`, decision_logger.py lines 291-299. -/
def DecisionLogger.close_phase (dl : DecisionLogger) (reason : String)
    (now : Nat) : DecisionLogger :=
  dl.modifyCurrent (fun cur => cur.close_phase reason now)

/-- `DecisionLogger.get_total_stroke_count`, decision_logger.py
lines 340-342. -/
def DecisionLogger.get_total_stroke_count (dl : DecisionLogger) : Nat :=
  (dl.phase_logs.map (fun l => l.strokes.length)).sum

/-- `WorkflowExecutor`, src/workflow/core/workflow_executor.py lines 21-47. -/
structure WorkflowExecutor where
  canvas : Canvas
  workflow_state : WorkflowState
  checkpoint_manager : CheckpointManager
  decision_logger : Option DecisionLogger
  stroke_history : List Stroke
deriving DecidableEq, Repr

/-- `WorkflowExecutor.create_checkpoint`, workflow_executor.py lines 182-204. -/
def WorkflowExecutor.create_checkpoint (e : WorkflowExecutor) (description : String)
    (metadata : List (String × String)) (now : Nat) : String × WorkflowExecutor :=
  let (checkpoint, m') :=
    e.checkpoint_manager.create_checkpoint e.canvas e.workflow_state.current_phase
      e.stroke_history description metadata now
  (checkpoint.checkpoint_id, { e with checkpoint_manager := m' })

/-- `WorkflowExecutor.__init__` plus `_initialize_workflow`,
workflow_executor.py lines 29-63: builds the fresh sub-components, forces the
phase to SKETCH, opens the sketch decision log, and creates the initial
checkpoint. -/
def WorkflowExecutor.init (canvas : Canvas) (max_checkpoints : Nat)
    (enable_logging : Bool) (now : Nat) : WorkflowExecutor :=
  let e0 : WorkflowExecutor :=
    { canvas := canvas
      workflow_state := WorkflowState.init now
      checkpoint_manager := CheckpointManager.init max_checkpoints
      decision_logger := if enable_logging then some DecisionLogger.init else none
      stroke_history := [] }
  let e1 :=
    { e0 with
      workflow_state := { e0.workflow_state with current_phase := .sketch }
      decision_logger :=
        e0.decision_logger.map (fun (dl : DecisionLogger) => dl.start_phase .sketch [] now) }
  (e1.create_checkpoint "Initial canvas state" [("type", "initial")] now).2

/-- `WorkflowExecutor.transition_to_phase`, workflow_executor.py lines 65-108. -/
def WorkflowExecutor.transition_to_phase (e : WorkflowExecutor)
    (new_phase : DrawingPhase) (reason : String) (metrics : List (String × ℚ))
    (make_checkpoint : Bool) (now : Nat) : Bool × WorkflowExecutor :=
  match e.workflow_state.transition_to_phase new_phase reason metrics 1 now with
  | (false, _) => (false, e)
  | (true, ws') =>
    let e1 := { e with workflow_state := ws' }
    let e2 :=
      { e1 with
        decision_logger :=
          e1.decision_logger.map
            (fun dl => (dl.close_phase reason now).start_phase new_phase [] now) }
    let e3 :=
      if make_checkpoint then
        (e2.create_checkpoint
          ("Phase transition to " ++ toString (repr new_phase))
          [("type", "phase_transition"), ("reason", reason)] now).2
      else e2
    (true, e3)

/-- `WorkflowExecutor.execute_stroke`, workflow_executor.py lines 110-180.
The generated `uuid.uuid4()` is an external input, passed as `stroke_uuid`. -/
def WorkflowExecutor.execute_stroke (e : WorkflowExecutor) (stroke : Stroke)
    (intent : Option StrokeIntent) (purpose : String)
    (task_id action_id : Option String)
    (pre_evaluation post_evaluation : Option (List (String × ℚ)))
    (stroke_uuid : String) (now : Nat) : String × WorkflowExecutor :=
  let intent' :=
    match intent with
    | some i => i
    | none =>
      (PRIMARY_INTENT e.workflow_state.current_phase).getD StrokeIntent.gesture
  let workflow_metadata : StrokeMetadata :=
    { intent := intent'
      phase := e.workflow_state.current_phase
      purpose := purpose
      task_id := task_id
      action_id := action_id
      confidence := 1
      refinement_pass := e.workflow_state.iteration_in_phase
      evaluation_score := none }
  let stroke' :=
    { stroke with
      workflow := some workflow_metadata
      stroke_id := some stroke_uuid }
  let e1 :=
    { e with
      stroke_history := e.stroke_history ++ [stroke']
      workflow_state := e.workflow_state.record_stroke }
  let e2 :=
    { e1 with
      decision_logger :=
        e1.decision_logger.map
          (fun dl =>
            dl.log_stroke stroke_uuid intent' e.workflow_state.current_phase
              purpose task_id action_id pre_evaluation post_evaluation
              (some stroke'.to_dict) [] now) }
  (stroke_uuid, e2)

/-- `WorkflowExecutor.rollback_to_checkpoint`, workflow_executor.py
lines 206-233. -/
def WorkflowExecutor.rollback_to_checkpoint (e : WorkflowExecutor)
    (checkpoint_id : String) : Bool × WorkflowExecutor :=
  match e.checkpoint_manager.rollback_to_checkpoint checkpoint_id with
  | (none, _) => (false, e)
  | (some checkpoint, m') =>
    let restored_history := m'.get_stroke_history_at_checkpoint checkpoint
    (true,
      { e with
        checkpoint_manager := m'
        canvas := m'.restore_checkpoint checkpoint
        stroke_history := restored_history
        workflow_state :=
          { e.workflow_state with
            current_phase := checkpoint.phase
            phase_start_time := checkpoint.timestamp
            total_strokes := restored_history.length } })

/-- `WorkflowExecutor.rollback_to_phase`, workflow_executor.py lines 235-248.
The manager-level `rollback_to_phase` already records the index; the executor
then redoes the lookup through `rollback_to_checkpoint` with the found id. -/
def WorkflowExecutor.rollback_to_phase (e : WorkflowExecutor)
    (phase : DrawingPhase) : Bool × WorkflowExecutor :=
  match e.checkpoint_manager.rollback_to_phase phase with
  | (some checkpoint, m') =>
    ({ e with checkpoint_manager := m' } : WorkflowExecutor).rollback_to_checkpoint
      checkpoint.checkpoint_id
  | (none, m') => (false, { e with checkpoint_manager := m' })

/-- The pure decision logic of `WorkflowExecutor.evaluate_and_decide_transition`,
workflow_executor.py lines 270-300 (everything after the evaluation has been
logged): empty metrics stay; high average progresses one phase forward; low
average after more than two iterations regresses one phase among
REFINEMENT/STYLIZATION/RENDERING. -/
def decide_transition (current_phase : DrawingPhase) (iteration_in_phase : Nat)
    (evaluation_metrics : List (String × ℚ)) (quality_threshold : ℚ) :
    Option DrawingPhase :=
  if evaluation_metrics.isEmpty then none
  else
    let avg_quality := meanValues evaluation_metrics
    if avg_quality ≥ quality_threshold then
      match current_phase with
      | .sketch => some .refinement
      | .refinement => some .stylization
      | .stylization => some .rendering
      | .rendering => some .complete
      | .complete => none
    else if avg_quality < 0.4 ∧ iteration_in_phase > 2 then
      match current_phase with
      | .rendering => some .stylization
      | .stylization => some .refinement
      | .refinement => some .sketch
      | _ => none
    else none

/-- `WorkflowExecutor.evaluate_and_decide_transition`, workflow_executor.py
lines 250-300: logs the evaluation, then applies `decide_transition`. -/
def WorkflowExecutor.evaluate_and_decide_transition (e : WorkflowExecutor)
    (evaluation_metrics : List (String × ℚ)) (quality_threshold : ℚ)
    (now : Nat) : Option DrawingPhase × WorkflowExecutor :=
  let e1 :=
    { e with
      decision_logger :=
        e.decision_logger.map (fun dl => dl.log_evaluation evaluation_metrics now) }
  (decide_transition e.workflow_state.current_phase
      e.workflow_state.iteration_in_phase evaluation_metrics quality_threshold,
    e1)

/-- `WorkflowExecutor.get_phase_stroke_count`, workflow_executor.py
lines 369-384: counts the strokes of the owned history whose attached workflow
metadata carries the given phase. -/
def WorkflowExecutor.get_phase_stroke_count (e : WorkflowExecutor)
    (phase : DrawingPhase) : Nat :=
  (e.stroke_history.filter
    (fun stroke =>
      match stroke.workflow with
      | some meta => meta.phase == phase
      | none => false)).length

/-- One public orchestrator operation, carrying all caller-chosen arguments
(the spec's §4.6 surface as the claims exercise it). -/
inductive Op where
  | executeStroke (stroke : Stroke) (intent : Option StrokeIntent) (purpose : String)
      (task_id action_id : Option String)
      (pre_evaluation post_evaluation : Option (List (String × ℚ)))
      (stroke_uuid : String)
  | transitionToPhase (new_phase : DrawingPhase) (reason : String)
      (metrics : List (String × ℚ)) (make_checkpoint : Bool)
  | createCheckpoint (description : String) (metadata : List (String × String))
  | rollbackToCheckpoint (checkpoint_id : String)
  | rollbackToPhase (phase : DrawingPhase)
  | evalAndDecide (metrics : List (String × ℚ)) (quality_threshold : ℚ)
deriving DecidableEq, Repr

/-- Whether the operation is one of the two rollback entry points. -/
def Op.isRollback : Op → Bool
  | .rollbackToCheckpoint _ => true
  | .rollbackToPhase _ => true
  | _ => false

/-- Whether the operation is `execute_stroke`. -/
def Op.isExecuteStroke : Op → Bool
  | .executeStroke .. => true
  | _ => false

/-- Apply one operation to the executor at clock instant `now`, discarding the
returned value (each public method's state effect). -/
def WorkflowExecutor.step (e : WorkflowExecutor) (op : Op) (now : Nat) :
    WorkflowExecutor :=
  match op with
  | .executeStroke stroke intent purpose task_id action_id pre post uuid =>
    (e.execute_stroke stroke intent purpose task_id action_id pre post uuid now).2
  | .transitionToPhase p reason metrics ck =>
    (e.transition_to_phase p reason metrics ck now).2
  | .createCheckpoint desc meta => (e.create_checkpoint desc meta now).2
  | .rollbackToCheckpoint cid => (e.rollback_to_checkpoint cid).2
  | .rollbackToPhase p => (e.rollback_to_phase p).2
  | .evalAndDecide metrics thr => (e.evaluate_and_decide_transition metrics thr now).2

/-- Run a list of operations, the clock ticking once per operation. -/
def WorkflowExecutor.runAux (e : WorkflowExecutor) (ops : List Op) (now : Nat) :
    WorkflowExecutor :=
  match ops with
  | [] => e
  | op :: rest => WorkflowExecutor.runAux (e.step op now) rest (now + 1)

/-- A canvas a caller could hand to the constructor (content irrelevant to the
workflow claims). -/
def canvas0 : Canvas :=
  { width := 800
    height := 600
    canvas_id := "c0"
    name := "Untitled"
    background_color := (255, 255, 255, 255)
    dpi := 300
    layers :=
      [{ name := "Layer 1"
         layer_id := "l0"
         visible := true
         locked := false
         opacity := 1
         blend_mode := "normal"
         parent_id := none
         metadata := [] }]
    active_layer_id := some "l0"
    metadata := [] }

/-- Run from a freshly constructed executor (construction at clock 0, with
default `max_checkpoints = 10` and logging enabled, as in the source's
defaults), the operations at clocks 1, 2, .... -/
def runOps (ops : List Op) : WorkflowExecutor :=
  WorkflowExecutor.runAux (WorkflowExecutor.init canvas0 10 true 0) ops 1

/-- An input stroke with no pre-attached workflow metadata. -/
def blankStroke : Stroke :=
  { payload := "s", workflow := none, stroke_id := none, meta_rest := [] }

/-! Spec-side definitions: these follow the words of the spec / claims and are
compared against the code-derived definitions above. -/

/-- The transition table of spec §4.1, written as the 13 allowed ordered
pairs. -/
def specAllowedPairs : List (DrawingPhase × DrawingPhase) :=
  [(.sketch, .sketch), (.sketch, .refinement),
   (.refinement, .sketch), (.refinement, .refinement), (.refinement, .stylization),
   (.stylization, .refinement), (.stylization, .stylization), (.stylization, .rendering),
   (.rendering, .stylization), (.rendering, .rendering), (.rendering, .complete),
   (.complete, .complete), (.complete, .rendering)]

/-- Successor in the fixed order Sketch→Refinement→Stylization→Rendering→Complete
(Complete has none), as the spec words it. -/
def nextPhaseInOrder : DrawingPhase → Option DrawingPhase
  | .sketch => some .refinement
  | .refinement => some .stylization
  | .stylization => some .rendering
  | .rendering => some .complete
  | .complete => none

/-- Predecessor in the same fixed order (Sketch has none). -/
def prevPhaseInOrder : DrawingPhase → Option DrawingPhase
  | .sketch => none
  | .refinement => some .sketch
  | .stylization => some .refinement
  | .rendering => some .stylization
  | .complete => some .rendering

/-- The recommendation function exactly as claim C7 words it: empty metrics
stay; average at or above the threshold moves to the next phase in the fixed
order (none at Complete); average below 0.4 with more than two iterations
moves to the previous phase in the fixed order, none only at Sketch; none
otherwise. -/
def claimedDecision (current_phase : DrawingPhase) (iteration_in_phase : Nat)
    (evaluation_metrics : List (String × ℚ)) (quality_threshold : ℚ) :
    Option DrawingPhase :=
  if evaluation_metrics.isEmpty then none
  else
    let avg_quality := meanValues evaluation_metrics
    if avg_quality ≥ quality_threshold then
      nextPhaseInOrder current_phase
    else if avg_quality < 0.4 ∧ iteration_in_phase > 2 then
      prevPhaseInOrder current_phase
    else none

/-- Claim C7 amended: as `claimedDecision`, except that the backward branch
also returns none at Complete (the regression step exists only from
Refinement, Stylization and Rendering). -/
def amendedDecision (current_phase : DrawingPhase) (iteration_in_phase : Nat)
    (evaluation_metrics : List (String × ℚ)) (quality_threshold : ℚ) :
    Option DrawingPhase :=
  if evaluation_metrics.isEmpty then none
  else
    let avg_quality := meanValues evaluation_metrics
    if avg_quality ≥ quality_threshold then
      nextPhaseInOrder current_phase
    else if avg_quality < 0.4 ∧ iteration_in_phase > 2 then
      match current_phase with
      | .complete => none
      | p => prevPhaseInOrder p
    else none

/-- The invariant claim C8 states: the current phase equals the `to_phase` of
the last transition record, or the initial phase (Sketch) when the history is
empty. -/
def lastToPhaseInvariant (e : WorkflowExecutor) : Prop :=
  e.workflow_state.current_phase =
    (e.workflow_state.phase_history.getLast?.map PhaseTransition.to_phase).getD
      DrawingPhase.sketch

/-- Phase tracking of a rollback-free run, derived from the spec's state
machine alone: a transition op moves to its target exactly when the table
allows it, every other op keeps the phase. -/
def simTransition (ph : DrawingPhase) (op : Op) : DrawingPhase :=
  match op with
  | .transitionToPhase p _ _ _ => if is_valid_transition ph p then p else ph
  | _ => ph

/-- Number of strokes a rollback-free run executes while the simulated phase
is `p`, starting from phase `ph` (spec-side counterpart of
`get_phase_stroke_count`). -/
def specPhaseStrokeCount (p ph : DrawingPhase) : List Op → Nat
  | [] => 0
  | op :: rest =>
    (if op.isExecuteStroke && ph == p then 1 else 0) +
      specPhaseStrokeCount p (simTransition ph op) rest

/-- Number of `execute_stroke` calls a list of operations performs. -/
def numExecutes (ops : List Op) : Nat :=
  (ops.filter Op.isExecuteStroke).length

/-- Total logged stroke count of the executor's decision logger (0 when
logging is disabled). -/
def loggerTotal (e : WorkflowExecutor) : Nat :=
  match e.decision_logger with
  | some dl => dl.get_total_stroke_count
  | none => 0

/-- Logging is enabled and a phase log has been opened (true from construction
on, for an executor built with `enable_logging`). -/
def loggerReady (e : WorkflowExecutor) : Bool :=
  match e.decision_logger with
  | some dl => ! dl.phase_logs.isEmpty
  | none => false

/-- The arguments of one `create_checkpoint` call on a manager (claim C6
quantifies over sequences of such calls). -/
structure CreateIn where
  canvas : Canvas
  phase : DrawingPhase
  hist : List Stroke
  desc : String
  meta : List (String × String)
  now : Nat
deriving DecidableEq, Repr

/-- The checkpoint a `create_checkpoint` call builds from its arguments
(checkpoint_manager.py lines 104-118; independent of the store it is added
to). -/
def CreateIn.mkCheckpoint (i : CreateIn) : CanvasCheckpoint :=
  { checkpoint_id := "checkpoint_" ++ toString i.now
    timestamp := i.now
    phase := i.phase
    canvas_state := i.canvas.to_dict
    stroke_history := i.hist.map Stroke.to_dict
    metadata := i.meta
    description := i.desc }

/-- The id a `create_checkpoint` call assigns. -/
def CreateIn.cid (i : CreateIn) : String :=
  "checkpoint_" ++ toString i.now

/-- One `create_checkpoint` call, keeping only the store. -/
def applyCreate (m : CheckpointManager) (i : CreateIn) : CheckpointManager :=
  (m.create_checkpoint i.canvas i.phase i.hist i.desc i.meta i.now).2

/-- A sequence of `create_checkpoint` calls. -/
def createAll (m : CheckpointManager) (ins : List CreateIn) : CheckpointManager :=
  ins.foldl applyCreate m

end Artist

/-!
Reference-semantics model for claim C4.  The value-level embedding above treats
`to_dict` as a value copy; the Python sources, however, place the *same*
`metadata` dict object into the produced dictionary (`"metadata":
self.metadata`, canvas.py line 192 and line 52, stroke.py line 189), so a
checkpoint's stored `canvas_state` shares those nested dicts with the live
canvas.  This namespace models exactly that: `metadata` dicts live in an
explicit heap and objects hold references into it; all other fields are copied
by value, as `to_dict` builds fresh top-level dicts and lists.
-/

namespace RefModel

/-- A heap address of a Python dict object. -/
abbrev Ref := Nat

/-- Content of a metadata dict. -/
abbrev PyDict := List (String × String)

/-- The heap of dict objects, addressed by position. -/
structure Heap where
  cells : List PyDict
deriving DecidableEq, Repr

/-- Dereference (a missing address reads as an empty dict; the theorems only
use valid addresses). -/
def Heap.read (h : Heap) (r : Ref) : PyDict :=
  h.cells.getD r []

/-- Python `d[k] = v` on a dict's content. -/
def dictSet (d : PyDict) (k v : String) : PyDict :=
  if d.any (fun p => p.1 == k) then
    d.map (fun p => if p.1 == k then (k, v) else p)
  else
    d ++ [(k, v)]

/-- In-place update `obj.metadata[k] = v` of the dict at address `r`. -/
def Heap.write (h : Heap) (r : Ref) (k v : String) : Heap :=
  ⟨h.cells.set r (dictSet (h.read r) k v)⟩

/-- A live `Layer` object, its `metadata` a reference (canvas.py
lines 25-40). -/
structure LayerObj where
  name : String
  layer_id : String
  visible : Bool
  locked : Bool
  opacity : ℚ
  blend_mode : String
  parent_id : Option String
  meta : Ref
deriving DecidableEq, Repr

/-- A live `Canvas` object (canvas.py lines 64-80). -/
structure CanvasObj where
  width : Nat
  height : Nat
  canvas_id : String
  name : String
  background_color : Nat × Nat × Nat × Nat
  dpi : Nat
  layers : List LayerObj
  active_layer_id : Option String
  meta : Ref
deriving DecidableEq, Repr

/-- The dict `Layer.to_dict` builds (canvas.py lines 42-53): a fresh top-level
dict whose `"metadata"` entry is the same object — the same reference. -/
structure LayerDictR where
  name : String
  layer_id : String
  visible : Bool
  locked : Bool
  opacity : ℚ
  blend_mode : String
  parent_id : Option String
  meta : Ref
deriving DecidableEq, Repr

/-- The dict `Canvas.to_dict` builds (canvas.py lines 181-193): fresh top-level
dict and fresh layer list, but the `"metadata"` entries keep the references. -/
structure CanvasDictR where
  width : Nat
  height : Nat
  canvas_id : String
  name : String
  background_color : Nat × Nat × Nat × Nat
  dpi : Nat
  layers : List LayerDictR
  active_layer_id : Option String
  meta : Ref
deriving DecidableEq, Repr

/-- `Layer.to_dict`, canvas.py lines 42-53. -/
def LayerObj.to_dict (l : LayerObj) : LayerDictR :=
  { name := l.name
    layer_id := l.layer_id
    visible := l.visible
    locked := l.locked
    opacity := l.opacity
    blend_mode := l.blend_mode
    parent_id := l.parent_id
    meta := l.meta }

/-- `Canvas.to_dict`, canvas.py lines 181-193. -/
def CanvasObj.to_dict (c : CanvasObj) : CanvasDictR :=
  { width := c.width
    height := c.height
    canvas_id := c.canvas_id
    name := c.name
    background_color := c.background_color
    dpi := c.dpi
    layers := c.layers.map LayerObj.to_dict
    active_layer_id := c.active_layer_id
    meta := c.meta }

/-- `Canvas.from_dict` / `Layer.from_dict`, canvas.py lines 195-201 and 55-61:
`data.copy()` is a shallow copy, so the `metadata` entries are passed into the
fresh objects as the same references. -/
def CanvasDictR.from_dict (d : CanvasDictR) : CanvasObj :=
  { width := d.width
    height := d.height
    canvas_id := d.canvas_id
    name := d.name
    background_color := d.background_color
    dpi := d.dpi
    layers :=
      d.layers.map
        (fun l =>
          { name := l.name
            layer_id := l.layer_id
            visible := l.visible
            locked := l.locked
            opacity := l.opacity
            blend_mode := l.blend_mode
            parent_id := l.parent_id
            meta := l.meta })
    active_layer_id := d.active_layer_id
    meta := d.meta }

/-- The observable (deep) value of a stored layer dict: every field with the
metadata content read from the heap. -/
structure DeepLayer where
  name : String
  layer_id : String
  visible : Bool
  locked : Bool
  opacity : ℚ
  blend_mode : String
  parent_id : Option String
  metaContent : PyDict
deriving DecidableEq, Repr

/-- The observable (deep) value of a stored `canvas_state`. -/
structure DeepCanvas where
  width : Nat
  height : Nat
  canvas_id : String
  name : String
  background_color : Nat × Nat × Nat × Nat
  dpi : Nat
  layers : List DeepLayer
  active_layer_id : Option String
  metaContent : PyDict
deriving DecidableEq, Repr

/-- Deep-read a stored layer dict under a heap. -/
def observeLayer (h : Heap) (l : LayerDictR) : DeepLayer :=
  { name := l.name
    layer_id := l.layer_id
    visible := l.visible
    locked := l.locked
    opacity := l.opacity
    blend_mode := l.blend_mode
    parent_id := l.parent_id
    metaContent := h.read l.meta }

/-- Deep-read a stored `canvas_state` under a heap: the content a consumer of
the checkpoint (`restore_checkpoint`, `export`) sees at that moment. -/
def observeCanvas (h : Heap) (c : CanvasDictR) : DeepCanvas :=
  { width := c.width
    height := c.height
    canvas_id := c.canvas_id
    name := c.name
    background_color := c.background_color
    dpi := c.dpi
    layers := c.layers.map (observeLayer h)
    active_layer_id := c.active_layer_id
    metaContent := h.read c.meta }

/-- A concrete live canvas: its `metadata` dict at address 0 holding
`{"style": "ink"}`, one layer whose `metadata` dict at address 1 is empty. -/
def sampleHeap : Heap := ⟨[[("style", "ink")], []]⟩

/-- The live canvas object over `sampleHeap`. -/
def sampleCanvas : CanvasObj :=
  { width := 800
    height := 600
    canvas_id := "c0"
    name := "Untitled"
    background_color := (255, 255, 255, 255)
    dpi := 300
    layers :=
      [{ name := "Layer 1"
         layer_id := "l0"
         visible := true
         locked := false
         opacity := 1
         blend_mode := "normal"
         parent_id := none
         meta := 1 }]
    active_layer_id := some "l0"
    meta := 0 }

end RefModel

/-! Theorems.  Each claim of the specification review is settled below.
Shared helper lemmas come first; the claim theorems follow. -/

open Artist

/-- Helper: a rejected `WorkflowState.transition_to_phase` returns the state
untouched. -/
theorem ws_transition_failure (s : WorkflowState) (p : DrawingPhase)
    (reason : String) (metrics : List (String × ℚ)) (confidence : ℚ) (now : Nat)
    (h : is_valid_transition s.current_phase p = false) :
    s.transition_to_phase p reason metrics confidence now = (false, s) := by
  simp [WorkflowState.transition_to_phase, h]

/-- Helper: an accepted `WorkflowState.transition_to_phase`, written out. -/
theorem ws_transition_success (s : WorkflowState) (p : DrawingPhase)
    (reason : String) (metrics : List (String × ℚ)) (confidence : ℚ) (now : Nat)
    (h : is_valid_transition s.current_phase p = true) :
    s.transition_to_phase p reason metrics confidence now =
      (true,
        { s with
          phase_history := s.phase_history ++
            [{ from_phase := s.current_phase, to_phase := p, timestamp := now,
               reason := reason, metrics := metrics, confidence := confidence }]
          current_phase := p
          phase_start_time := now
          iteration_in_phase :=
            if p = s.current_phase then s.iteration_in_phase + 1 else 0
          phase_stroke_count := 0 }) := by
  simp [WorkflowState.transition_to_phase, h]

/-- Helper: the enumerate-style search returns exactly the `find?` result in
its second component. -/
theorem findCheckpointWithIdx_find? (l : List CanvasCheckpoint) (cid : String) :
    (findCheckpointWithIdx l cid).map Prod.snd =
      l.find? (fun cp => cp.checkpoint_id == cid) := by
  induction l with
  | nil => rfl
  | cons cp rest ih =>
    by_cases h : cp.checkpoint_id == cid
    · simp [findCheckpointWithIdx, List.find?, h]
    · simp only [findCheckpointWithIdx, List.find?, h, if_neg, Bool.false_eq_true,
        not_false_iff, ite_false]
      rw [← ih]
      cases findCheckpointWithIdx rest cid <;> simp

/-- Helper: the executor's rollback with an unknown id is the identity
returning false. -/
theorem executor_rollback_none (e : WorkflowExecutor) (cid : String)
    (h : e.checkpoint_manager.get_checkpoint cid = none) :
    e.rollback_to_checkpoint cid = (false, e) := by
  have hf : findCheckpointWithIdx e.checkpoint_manager.checkpoints cid = none := by
    have := findCheckpointWithIdx_find? e.checkpoint_manager.checkpoints cid
    rw [CheckpointManager.get_checkpoint] at h
    rw [h] at this
    cases hx : findCheckpointWithIdx e.checkpoint_manager.checkpoints cid
    · rfl
    · rw [hx] at this
      simp at this
  simp [WorkflowExecutor.rollback_to_checkpoint,
    CheckpointManager.rollback_to_checkpoint, hf]

/-- Helper: the executor's rollback with a stored id, written out. -/
theorem executor_rollback_some (e : WorkflowExecutor) (cid : String)
    (cp : CanvasCheckpoint)
    (h : e.checkpoint_manager.get_checkpoint cid = some cp) :
    ∃ i : Nat,
      findCheckpointWithIdx e.checkpoint_manager.checkpoints cid = some (i, cp) ∧
      e.rollback_to_checkpoint cid =
        (true,
          { e with
            checkpoint_manager :=
              { e.checkpoint_manager with current_checkpoint_index := (i : Int) }
            canvas := Canvas.from_dict cp.canvas_state
            stroke_history := cp.stroke_history.map Stroke.from_dict
            workflow_state :=
              { e.workflow_state with
                current_phase := cp.phase
                phase_start_time := cp.timestamp
                total_strokes := (cp.stroke_history.map Stroke.from_dict).length } }) := by
  have hm := findCheckpointWithIdx_find? e.checkpoint_manager.checkpoints cid
  rw [CheckpointManager.get_checkpoint] at h
  rw [h] at hm
  cases hx : findCheckpointWithIdx e.checkpoint_manager.checkpoints cid with
  | none => rw [hx] at hm; simp at hm
  | some ic =>
    obtain ⟨i, c⟩ := ic
    rw [hx] at hm
    simp at hm
    subst hm
    refine ⟨i, rfl, ?_⟩
    simp [WorkflowExecutor.rollback_to_checkpoint,
      CheckpointManager.rollback_to_checkpoint, hx,
      CheckpointManager.get_stroke_history_at_checkpoint,
      CheckpointManager.restore_checkpoint]

/-- Helper: the store after one `create_checkpoint` call: append, then drop
the oldest entry when the capacity is exceeded. -/
theorem applyCreate_checkpoints (m : CheckpointManager) (i : CreateIn) :
    (applyCreate m i).checkpoints =
      (if m.max_checkpoints < m.checkpoints.length + 1 then
        (m.checkpoints ++ [i.mkCheckpoint]).tail
      else m.checkpoints ++ [i.mkCheckpoint]) ∧
    (applyCreate m i).max_checkpoints = m.max_checkpoints := by
  by_cases h : m.max_checkpoints < m.checkpoints.length + 1 <;>
    simp [applyCreate, CheckpointManager.create_checkpoint, CreateIn.mkCheckpoint, h]

/-- Helper: after any sequence of creations on an empty store of capacity
`k ≥ 1`, the store holds exactly the checkpoints of the last `min k n`
creations, in creation order. -/
theorem createAll_checkpoints (k : Nat) (hk : 1 ≤ k) (ins : List CreateIn) :
    (createAll (CheckpointManager.init k) ins).checkpoints =
      (ins.map CreateIn.mkCheckpoint).drop (ins.length - k) ∧
    (createAll (CheckpointManager.init k) ins).max_checkpoints = k := by
  induction ins using List.reverseRecOn with
  | nil => simp [createAll, CheckpointManager.init]
  | append_singleton ins x ih =>
    obtain ⟨ih1, ih2⟩ := ih
    have hstep : createAll (CheckpointManager.init k) (ins ++ [x]) =
        applyCreate (createAll (CheckpointManager.init k) ins) x := by
      simp [createAll, List.foldl_append]
    obtain ⟨h1, h2⟩ := applyCreate_checkpoints (createAll (CheckpointManager.init k) ins) x
    refine ⟨?_, by rw [hstep, h2, ih2]⟩
    rw [hstep, h1, ih2, ih1]
    by_cases hkn : ins.length < k
    · rw [if_neg]
      · rw [show (ins ++ [x]).length - k = 0 by simp; omega]
        simp [show ins.length - k = 0 by omega]
      · rw [List.length_drop, List.length_map]
        omega
    · have hlen : ((ins.map CreateIn.mkCheckpoint).drop (ins.length - k)).length = k := by
        rw [List.length_drop, List.length_map]
        omega
      rw [if_pos]
      · have hne : (ins.map CreateIn.mkCheckpoint).drop (ins.length - k) ≠ [] := by
          intro hc
          rw [hc] at hlen
          simp at hlen
          omega
        rw [List.tail_append_singleton_of_ne_nil hne, List.tail_drop]
        rw [show (ins ++ [x]).length - k = (ins.length - k) + 1 by simp; omega]
        rw [List.map_append, List.drop_append_of_le_length]
        · simp
        · rw [List.length_map]
          omega
      · rw [hlen]
        omega

/-- C6: creating `k + 3` checkpoints (distinct ids) on an empty store of
capacity `k ≥ 1` leaves exactly `k` checkpoints — the `k` most recent, in
creation order — `get_checkpoint` returns none for each of the 3 evicted
oldest ids, and after any prefix of `j` creations the store holds `min j k`
checkpoints (each creation evicts at most the single oldest entry). -/
theorem C6_bounded_store (k : Nat) (hk : 1 ≤ k) (ins : List CreateIn)
    (hlen : ins.length = k + 3)
    (hdist : (ins.map CreateIn.cid).Pairwise (· ≠ ·)) :
    (createAll (CheckpointManager.init k) ins).get_checkpoint_count = k ∧
    (createAll (CheckpointManager.init k) ins).checkpoints =
      (ins.map CreateIn.mkCheckpoint).drop 3 ∧
    (∀ i ∈ ins.take 3,
      (createAll (CheckpointManager.init k) ins).get_checkpoint i.cid = none) ∧
    (∀ j, j ≤ ins.length →
      (createAll (CheckpointManager.init k) (ins.take j)).get_checkpoint_count =
        min j k) := by
  obtain ⟨hc, -⟩ := createAll_checkpoints k hk ins
  have hdrop3 : ins.length - k = 3 := by omega
  rw [hdrop3] at hc
  refine ⟨?_, hc, ?_, ?_⟩
  · rw [CheckpointManager.get_checkpoint_count, hc, List.length_drop, List.length_map]
    omega
  · intro i hi
    rw [CheckpointManager.get_checkpoint, hc]
    rw [List.find?_eq_none]
    intro cp hcp
    rw [← List.map_drop] at hcp
    obtain ⟨i', hi', rfl⟩ := List.mem_map.mp hcp
    have hid : (CreateIn.mkCheckpoint i').checkpoint_id = i'.cid := rfl
    rw [hid]
    have hsplit : ins.map CreateIn.cid =
        (ins.take 3).map CreateIn.cid ++ (ins.drop 3).map CreateIn.cid := by
      rw [← List.map_append, List.take_append_drop]
    rw [hsplit, List.pairwise_append] at hdist
    have hne : i'.cid ≠ i.cid :=
      Ne.symm
        (hdist.2.2 i.cid (List.mem_map_of_mem _ hi) i'.cid (List.mem_map_of_mem _ hi'))
    simp [hne]
  · intro j hj
    obtain ⟨hcj, -⟩ := createAll_checkpoints k hk (ins.take j)
    rw [CheckpointManager.get_checkpoint_count, hcj, List.length_drop,
      List.length_map, List.length_take]
    omega

/-- Witness for C6 at a concrete input: capacity 1, four creations; the store
ends with one checkpoint and the first id is evicted. -/
theorem C6_bounded_store_witness :
    (createAll (CheckpointManager.init 1)
      [⟨canvas0, .sketch, [], "", [], 1⟩, ⟨canvas0, .sketch, [], "", [], 2⟩,
       ⟨canvas0, .sketch, [], "", [], 3⟩, ⟨canvas0, .sketch, [], "", [], 4⟩]).get_checkpoint_count = 1 ∧
    (createAll (CheckpointManager.init 1)
      [⟨canvas0, .sketch, [], "", [], 1⟩, ⟨canvas0, .sketch, [], "", [], 2⟩,
       ⟨canvas0, .sketch, [], "", [], 3⟩, ⟨canvas0, .sketch, [], "", [], 4⟩]).get_checkpoint
        (CreateIn.cid ⟨canvas0, .sketch, [], "", [], 1⟩) = none := by
  have h := C6_bounded_store 1 (by decide)
    [⟨canvas0, .sketch, [], "", [], 1⟩, ⟨canvas0, .sketch, [], "", [], 2⟩,
     ⟨canvas0, .sketch, [], "", [], 3⟩, ⟨canvas0, .sketch, [], "", [], 4⟩]
    (by rfl) (by decide)
  exact ⟨h.1, h.2.2.1 _ (by decide)⟩

/-- C5: rollback by an id with no stored checkpoint returns false and leaves
the executor (canvas, stroke history, workflow state, checkpoint store)
untouched; rollback by a stored id returns true and restores the stroke
history to exactly the length it had when the checkpoint was created (the
checkpoint stores one serialized stroke per stroke of the history given to
`create_checkpoint`), with `total_strokes` set to that same length. -/
theorem C5_rollback_by_id (e : WorkflowExecutor) (cid : String) :
    (e.checkpoint_manager.get_checkpoint cid = none →
      e.rollback_to_checkpoint cid = (false, e)) ∧
    (∀ cp : CanvasCheckpoint, e.checkpoint_manager.get_checkpoint cid = some cp →
      (e.rollback_to_checkpoint cid).1 = true ∧
      (e.rollback_to_checkpoint cid).2.stroke_history.length =
        cp.stroke_history.length ∧
      (e.rollback_to_checkpoint cid).2.workflow_state.total_strokes =
        cp.stroke_history.length) ∧
    (∀ (m : CheckpointManager) (canvas : Canvas) (phase : DrawingPhase)
        (hist : List Stroke) (desc : String) (meta : List (String × String))
        (now : Nat),
      ((m.create_checkpoint canvas phase hist desc meta now).1).stroke_history.length =
        hist.length) := by
  refine ⟨fun h => executor_rollback_none e cid h, ?_, ?_⟩
  · intro cp h
    obtain ⟨i, -, hroll⟩ := executor_rollback_some e cid cp h
    rw [hroll]
    simp
  · intro m canvas phase hist desc meta now
    rw [CheckpointManager.create_checkpoint]
    split <;> simp

/-- Witness for C5 at concrete inputs: on a freshly constructed executor, the
unknown id "nope" fails with no change, and the construction-time checkpoint
"checkpoint_0" (created when the stroke history had length 0) rolls back to
history length 0. -/
theorem C5_rollback_by_id_witness :
    (runOps []).rollback_to_checkpoint "nope" = (false, runOps []) ∧
    ((runOps []).rollback_to_checkpoint "checkpoint_0").1 = true ∧
    ((runOps []).rollback_to_checkpoint "checkpoint_0").2.stroke_history.length = 0 := by
  refine ⟨(C5_rollback_by_id (runOps []) "nope").1 (by decide), ?_, ?_⟩
  · exact ((C5_rollback_by_id (runOps []) "checkpoint_0").2.1
      { checkpoint_id := "checkpoint_0", timestamp := 0, phase := .sketch,
        canvas_state := canvas0.to_dict, stroke_history := [],
        metadata := [("type", "initial")], description := "Initial canvas state" }
      (by decide)).1
  · have := ((C5_rollback_by_id (runOps []) "checkpoint_0").2.1
      { checkpoint_id := "checkpoint_0", timestamp := 0, phase := .sketch,
        canvas_state := canvas0.to_dict, stroke_history := [],
        metadata := [("type", "initial")], description := "Initial canvas state" }
      (by decide)).2.1
    simpa using this

/-- C9: a successful executor rollback leaves the checkpoint store's contents,
count and lookups untouched (checkpoints created after the rollback target
stay retrievable), and leaves `phase_stroke_count` — and also
`iteration_in_phase` and the transition history — unchanged; only the current
phase, the phase start time and the total stroke count are overwritten. -/
theorem C9_rollback_preserves_store_and_phase_counter (e : WorkflowExecutor)
    (cid : String) (h : (e.rollback_to_checkpoint cid).1 = true) :
    (e.rollback_to_checkpoint cid).2.checkpoint_manager.checkpoints =
      e.checkpoint_manager.checkpoints ∧
    (e.rollback_to_checkpoint cid).2.checkpoint_manager.get_checkpoint_count =
      e.checkpoint_manager.get_checkpoint_count ∧
    (∀ cid2 : String,
      (e.rollback_to_checkpoint cid).2.checkpoint_manager.get_checkpoint cid2 =
        e.checkpoint_manager.get_checkpoint cid2) ∧
    (e.rollback_to_checkpoint cid).2.workflow_state.phase_stroke_count =
      e.workflow_state.phase_stroke_count ∧
    (e.rollback_to_checkpoint cid).2.workflow_state.iteration_in_phase =
      e.workflow_state.iteration_in_phase ∧
    (e.rollback_to_checkpoint cid).2.workflow_state.phase_history =
      e.workflow_state.phase_history := by
  cases hx : findCheckpointWithIdx e.checkpoint_manager.checkpoints cid with
  | none =>
    exfalso
    rw [WorkflowExecutor.rollback_to_checkpoint] at h
    rw [CheckpointManager.rollback_to_checkpoint, hx] at h
    simp at h
  | some ic =>
    rw [WorkflowExecutor.rollback_to_checkpoint, CheckpointManager.rollback_to_checkpoint, hx]
    simp [CheckpointManager.get_checkpoint, CheckpointManager.get_checkpoint_count]

/-- Witness for C9 at a concrete input: rolling a fresh executor back to its
construction-time checkpoint. -/
theorem C9_rollback_preserves_store_and_phase_counter_witness :
    ((runOps []).rollback_to_checkpoint "checkpoint_0").2.checkpoint_manager.get_checkpoint_count =
      (runOps []).checkpoint_manager.get_checkpoint_count ∧
    ((runOps []).rollback_to_checkpoint "checkpoint_0").2.workflow_state.phase_stroke_count =
      (runOps []).workflow_state.phase_stroke_count :=
  ⟨(C9_rollback_preserves_store_and_phase_counter (runOps []) "checkpoint_0"
      (by decide)).2.1,
    (C9_rollback_preserves_store_and_phase_counter (runOps []) "checkpoint_0"
      (by decide)).2.2.2.1⟩

/-- C1: for every ordered pair of phases, `is_valid_transition` agrees exactly
with the table of spec §4.1 (the 13 allowed pairs), and in particular the
phase-skipping pair Sketch→Rendering is rejected. -/
theorem C1_transition_table_exact :
    (∀ f t : DrawingPhase,
      is_valid_transition f t = true ↔ (f, t) ∈ specAllowedPairs) ∧
    is_valid_transition DrawingPhase.sketch DrawingPhase.rendering = false := by
  constructor
  · intro f t
    cases f <;> cases t <;> decide
  · decide

/-- C2: when the requested transition is not in the table,
`WorkflowState.transition_to_phase` returns false and the state — phase,
history, counters, everything — is exactly the state before the call, and the
operation is total (no exception). -/
theorem C2_invalid_transition_no_change (s : WorkflowState) (p : DrawingPhase)
    (reason : String) (metrics : List (String × ℚ)) (confidence : ℚ) (now : Nat)
    (h : is_valid_transition s.current_phase p = false) :
    s.transition_to_phase p reason metrics confidence now = (false, s) := by
  simp [WorkflowState.transition_to_phase, h]

/-- Witness for C2 at a concrete input: from Sketch, requesting Rendering. -/
theorem C2_invalid_transition_no_change_witness :
    is_valid_transition (WorkflowState.init 0).current_phase .rendering = false ∧
    (WorkflowState.init 0).transition_to_phase .rendering "skip" [] 1 5 =
      (false, WorkflowState.init 0) :=
  ⟨by decide,
    C2_invalid_transition_no_change (WorkflowState.init 0) .rendering "skip" [] 1 5
      (by decide)⟩

/-- C3: a valid transition returns true, appends exactly one record
(from = old phase, to = target), sets the current phase to the target,
increments the iteration counter on a self-loop and zeroes it otherwise, and
zeroes the per-phase stroke counter in every case; moreover the concrete
scenario — three Sketch self-loops from a fresh state give
`iteration_in_phase = 3` and history length 3, and a following transition to
Refinement gives `iteration_in_phase = 0` and `phase_stroke_count = 0`. -/
theorem C3_valid_transition_effects :
    (∀ (s : WorkflowState) (p : DrawingPhase) (reason : String)
        (metrics : List (String × ℚ)) (confidence : ℚ) (now : Nat),
      is_valid_transition s.current_phase p = true →
        (s.transition_to_phase p reason metrics confidence now).1 = true ∧
        (s.transition_to_phase p reason metrics confidence now).2.phase_history =
          s.phase_history ++
            [{ from_phase := s.current_phase, to_phase := p, timestamp := now,
               reason := reason, metrics := metrics, confidence := confidence }] ∧
        (s.transition_to_phase p reason metrics confidence now).2.current_phase = p ∧
        (s.transition_to_phase p reason metrics confidence now).2.iteration_in_phase =
          (if p = s.current_phase then s.iteration_in_phase + 1 else 0) ∧
        (s.transition_to_phase p reason metrics confidence now).2.phase_stroke_count = 0) ∧
    ((((WorkflowState.init 0).transition_to_phase .sketch "" [] 1 1).2.transition_to_phase
        .sketch "" [] 1 2).2.transition_to_phase .sketch "" [] 1 3).2.iteration_in_phase = 3 ∧
    ((((WorkflowState.init 0).transition_to_phase .sketch "" [] 1 1).2.transition_to_phase
        .sketch "" [] 1 2).2.transition_to_phase .sketch "" [] 1 3).2.phase_history.length = 3 ∧
    (((((WorkflowState.init 0).transition_to_phase .sketch "" [] 1 1).2.transition_to_phase
        .sketch "" [] 1 2).2.transition_to_phase .sketch "" [] 1 3).2.transition_to_phase
        .refinement "" [] 1 4).2.iteration_in_phase = 0 ∧
    (((((WorkflowState.init 0).transition_to_phase .sketch "" [] 1 1).2.transition_to_phase
        .sketch "" [] 1 2).2.transition_to_phase .sketch "" [] 1 3).2.transition_to_phase
        .refinement "" [] 1 4).2.phase_stroke_count = 0 := by
  refine ⟨?_, by decide, by decide, by decide, by decide⟩
  intro s p reason metrics confidence now h
  simp [WorkflowState.transition_to_phase, h]

/-- Witness for C3 at a concrete input: the first Sketch self-loop from a
fresh state. -/
theorem C3_valid_transition_effects_witness :
    is_valid_transition (WorkflowState.init 0).current_phase .sketch = true ∧
    ((WorkflowState.init 0).transition_to_phase .sketch "loop" [] 1 1).1 = true ∧
    ((WorkflowState.init 0).transition_to_phase .sketch "loop" [] 1 1).2.iteration_in_phase = 1 :=
  ⟨by decide,
    (C3_valid_transition_effects.1 (WorkflowState.init 0) .sketch "loop" [] 1 1
      (by decide)).1,
    by
      have h := (C3_valid_transition_effects.1 (WorkflowState.init 0) .sketch "loop" [] 1 1
        (by decide)).2.2.2.1
      simpa using h⟩

/-- C7 counterexample: at Complete with average quality 0.2 and iteration
count 3, the claim's reading ("previous phase in the fixed order, none only at
Sketch") demands Rendering, but the code returns none. -/
theorem C7_claim_fails_at_complete :
    claimedDecision .complete 3 [("quality", 0.2)] 0.7 = some .rendering ∧
    decide_transition .complete 3 [("quality", 0.2)] 0.7 = none := by
  constructor <;>
    norm_num [claimedDecision, decide_transition, meanValues, prevPhaseInOrder]

/-- C7 amended: `evaluate_and_decide_transition`'s decision agrees everywhere
with the claim corrected only in the backward branch, which returns none at
Complete as well as at Sketch; in particular Sketch with {quality: 0.8} gives
Refinement, Rendering after 3 iterations with {quality: 0.2} gives
Stylization, and any phase with {quality: 0.55} at the default threshold 0.7
gives none. -/
theorem C7_decision_matches_amended_claim :
    (∀ (current_phase : DrawingPhase) (iteration_in_phase : Nat)
        (metrics : List (String × ℚ)) (threshold : ℚ),
      decide_transition current_phase iteration_in_phase metrics threshold =
        amendedDecision current_phase iteration_in_phase metrics threshold) ∧
    decide_transition .sketch 0 [("quality", 0.8)] 0.7 = some .refinement ∧
    decide_transition .rendering 3 [("quality", 0.2)] 0.7 = some .stylization ∧
    (∀ p : DrawingPhase, decide_transition p 3 [("quality", 0.55)] 0.7 = none) := by
  refine ⟨?_, by norm_num [decide_transition, meanValues],
    by norm_num [decide_transition, meanValues], ?_⟩
  · intro cur iter m thr
    unfold decide_transition amendedDecision
    cases cur <;> split_ifs <;> rfl
  · intro p
    cases p <;> norm_num [decide_transition, meanValues]

/-- C4: the code, not the claim, is at fault.  A checkpoint's stored
`canvas_state` shares the nested `metadata` dict objects with the live canvas
(`"metadata": self.metadata` in `Canvas.to_dict` / `Layer.to_dict`), so
mutating the live canvas's metadata dict after `create_checkpoint` changes the
checkpoint's observable content — the value isolation the claim (and spec §3)
requires does not hold.  Concretely: the stored state reads as
`{"style": "ink"}` at creation time, and reads differently after the live
mutation `canvas.metadata["touched"] = "yes"`. -/
theorem C4_checkpoint_metadata_not_isolated :
    (RefModel.observeCanvas RefModel.sampleHeap
        RefModel.sampleCanvas.to_dict).metaContent = [("style", "ink")] ∧
    (RefModel.observeCanvas
        (RefModel.sampleHeap.write RefModel.sampleCanvas.meta "touched" "yes")
        RefModel.sampleCanvas.to_dict).metaContent =
      [("style", "ink"), ("touched", "yes")] ∧
    RefModel.observeCanvas
        (RefModel.sampleHeap.write RefModel.sampleCanvas.meta "touched" "yes")
        RefModel.sampleCanvas.to_dict ≠
      RefModel.observeCanvas RefModel.sampleHeap RefModel.sampleCanvas.to_dict := by
  refine ⟨by decide, by decide, by decide⟩

/-- Helper: the executor's `create_checkpoint` touches only the checkpoint
store. -/
theorem create_checkpoint_frame (e : WorkflowExecutor) (d : String)
    (m : List (String × String)) (now : Nat) :
    ((e.create_checkpoint d m now).2).workflow_state = e.workflow_state ∧
    ((e.create_checkpoint d m now).2).decision_logger = e.decision_logger ∧
    ((e.create_checkpoint d m now).2).stroke_history = e.stroke_history ∧
    ((e.create_checkpoint d m now).2).canvas = e.canvas := by
  rw [WorkflowExecutor.create_checkpoint]
  cases hx : e.checkpoint_manager.create_checkpoint e.canvas
    e.workflow_state.current_phase e.stroke_history d m now with
  | mk cp m' => exact ⟨rfl, rfl, rfl, rfl⟩

/-- Helper: each non-rollback operation preserves the last-transition
invariant. -/
theorem step_preserves_lastToPhase (e : WorkflowExecutor) (op : Op) (now : Nat)
    (hop : op.isRollback = false) (h : lastToPhaseInvariant e) :
    lastToPhaseInvariant (e.step op now) := by
  cases op with
  | executeStroke s i pu t a pre post u =>
    simpa [WorkflowExecutor.step, WorkflowExecutor.execute_stroke,
      WorkflowState.record_stroke, lastToPhaseInvariant] using h
  | transitionToPhase p r m ck =>
    by_cases hv : is_valid_transition e.workflow_state.current_phase p
    · have hws := ws_transition_success e.workflow_state p r m 1 now hv
      rw [WorkflowExecutor.step, WorkflowExecutor.transition_to_phase, hws]
      by_cases hck : ck
      · simp only [hck, if_true]
        rw [lastToPhaseInvariant, (create_checkpoint_frame _ _ _ _).1]
        simp [lastToPhaseInvariant, List.getLast?_concat]
      · simp only [hck, if_false]
        simp [lastToPhaseInvariant, List.getLast?_concat]
    · have hv' : is_valid_transition e.workflow_state.current_phase p = false :=
        Bool.not_eq_true _ ▸ (by simpa using hv)
      rw [WorkflowExecutor.step, WorkflowExecutor.transition_to_phase,
        ws_transition_failure e.workflow_state p r m 1 now hv']
      exact h
  | createCheckpoint d m =>
    rw [WorkflowExecutor.step, lastToPhaseInvariant,
      (create_checkpoint_frame e d m now).1]
    exact h
  | rollbackToCheckpoint cid => simp [Op.isRollback] at hop
  | rollbackToPhase p => simp [Op.isRollback] at hop
  | evalAndDecide m t =>
    simpa [WorkflowExecutor.step, WorkflowExecutor.evaluate_and_decide_transition,
      lastToPhaseInvariant] using h

/-- Helper: a rollback-free run preserves the last-transition invariant. -/
theorem runAux_preserves_lastToPhase (ops : List Op) :
    ∀ (e : WorkflowExecutor) (now : Nat),
      (∀ op ∈ ops, op.isRollback = false) → lastToPhaseInvariant e →
        lastToPhaseInvariant (e.runAux ops now) := by
  induction ops with
  | nil => intro e now _ h; exact h
  | cons op rest ih =>
    intro e now hops h
    rw [WorkflowExecutor.runAux]
    exact ih _ _ (fun o ho => hops o (List.mem_cons_of_mem _ ho))
      (step_preserves_lastToPhase e op now (hops op (List.mem_cons_self op rest)) h)

/-- C8 counterexample: transition Sketch→Refinement, then roll back to the
construction-time checkpoint.  The rollback overwrites `current_phase` (to
Sketch) without touching `phase_history`, whose last record still reads
to_phase = Refinement: the claimed invariant fails. -/
theorem C8_invariant_fails_after_rollback :
    (runOps [Op.transitionToPhase .refinement "r" [] false,
      Op.rollbackToCheckpoint "checkpoint_0"]).workflow_state.current_phase =
        DrawingPhase.sketch ∧
    (runOps [Op.transitionToPhase .refinement "r" [] false,
      Op.rollbackToCheckpoint "checkpoint_0"]).workflow_state.phase_history.getLast? =
      some { from_phase := .sketch, to_phase := .refinement, timestamp := 1,
             reason := "r", metrics := [], confidence := 1 } ∧
    ¬ lastToPhaseInvariant
      (runOps [Op.transitionToPhase .refinement "r" [] false,
        Op.rollbackToCheckpoint "checkpoint_0"]) := by
  refine ⟨by decide, by decide, by unfold lastToPhaseInvariant; decide⟩

/-- C8 amended: after every sequence of operations on a freshly constructed
orchestrator that contains no rollback, the current phase equals the to_phase
of the last transition record (Sketch when the history is empty).  Rollback to
a checkpoint of an earlier phase violates the invariant, as the counterexample
shows. -/
theorem C8_invariant_without_rollback (ops : List Op)
    (hops : ∀ op ∈ ops, op.isRollback = false) :
    lastToPhaseInvariant (runOps ops) :=
  runAux_preserves_lastToPhase ops _ 1 hops (by unfold lastToPhaseInvariant; decide)

/-- Witness for C8 amended at a concrete input: a valid transition followed by
a stroke. -/
theorem C8_invariant_without_rollback_witness :
    lastToPhaseInvariant
      (runOps [Op.transitionToPhase .refinement "go" [] true,
        Op.executeStroke blankStroke none "" none none none none "u1"]) :=
  C8_invariant_without_rollback
    [Op.transitionToPhase .refinement "go" [] true,
      Op.executeStroke blankStroke none "" none none none none "u1"]
    (by intro op hop; fin_cases hop <;> rfl)


/-- Helper: replacing the last log by one with the same stroke count keeps the
total. -/
theorem modifyLast_total_pres (f : PhaseDecisionLog → PhaseDecisionLog)
    (hf : ∀ l, (f l).strokes.length = l.strokes.length) :
    ∀ logs : List PhaseDecisionLog,
      ((modifyLast f logs).map (fun l => l.strokes.length)).sum =
        (logs.map (fun l => l.strokes.length)).sum
  | [] => rfl
  | [l] => by simp [modifyLast, hf]
  | l :: l2 :: rest2 => by
    have ih := modifyLast_total_pres f hf (l2 :: rest2)
    simp only [modifyLast, List.map_cons, List.sum_cons] at ih ⊢
    omega

/-- Helper: replacing the last log by one with one more stroke adds one to the
total. -/
theorem modifyLast_total_add (f : PhaseDecisionLog → PhaseDecisionLog)
    (hf : ∀ l, (f l).strokes.length = l.strokes.length + 1) :
    ∀ logs : List PhaseDecisionLog, logs ≠ [] →
      ((modifyLast f logs).map (fun l => l.strokes.length)).sum =
        (logs.map (fun l => l.strokes.length)).sum + 1
  | [], h => absurd rfl h
  | [l], _ => by simp [modifyLast, hf]
  | l :: l2 :: rest2, _ => by
    have ih := modifyLast_total_add f hf (l2 :: rest2) (by simp)
    simp only [modifyLast, List.map_cons, List.sum_cons] at ih ⊢
    omega

/-- Helper: `modifyLast` keeps the number of logs. -/
theorem modifyLast_length (f : PhaseDecisionLog → PhaseDecisionLog) :
    ∀ logs : List PhaseDecisionLog, (modifyLast f logs).length = logs.length
  | [] => rfl
  | [_] => rfl
  | l :: l2 :: rest2 => by
    have ih := modifyLast_length f (l2 :: rest2)
    simp only [modifyLast, List.length_cons] at ih ⊢
    omega

/-- Helper: `modifyLast` keeps a nonempty list nonempty. -/
theorem modifyLast_ne_nil (f : PhaseDecisionLog → PhaseDecisionLog)
    (logs : List PhaseDecisionLog) (h : logs ≠ []) : modifyLast f logs ≠ [] := by
  intro hc
  apply h
  have hl := modifyLast_length f logs
  rw [hc] at hl
  exact List.eq_nil_of_length_eq_zero hl.symm

/-- Helper: `close_phase` does not touch the stroke list. -/
theorem close_phase_strokes (l : PhaseDecisionLog) (reason : String) (now : Nat) :
    (l.close_phase reason now).strokes = l.strokes := rfl

/-- Helper: `start_phase` keeps the total stroke count and yields a nonempty
log list. -/
theorem start_phase_total (dl : DecisionLogger) (p : DrawingPhase)
    (m : List (String × String)) (now : Nat) :
    (dl.start_phase p m now).get_total_stroke_count = dl.get_total_stroke_count ∧
    (dl.start_phase p m now).phase_logs ≠ [] := by
  rw [DecisionLogger.start_phase]
  constructor
  · cases hg : dl.phase_logs.getLast? with
    | none =>
      simp [DecisionLogger.get_total_stroke_count]
    | some l =>
      by_cases he : l.end_time = none
      · simp only [he, if_true]
        have hpres := modifyLast_total_pres
          (fun cur => cur.close_phase "Phase transition" now)
          (fun l => by rw [close_phase_strokes]) dl.phase_logs
        simp [DecisionLogger.get_total_stroke_count, DecisionLogger.modifyCurrent,
          hpres]
      · simp only [he, if_false]
        simp [DecisionLogger.get_total_stroke_count]
  · cases hg : dl.phase_logs.getLast? <;> simp

/-- Helper: `log_stroke` on a logger with an open log adds exactly one to the
total and keeps the log list nonempty. -/
theorem log_stroke_total (dl : DecisionLogger) (hne : dl.phase_logs ≠ [])
    (sid : String) (intent : StrokeIntent) (p : DrawingPhase) (pu : String)
    (t a : Option String) (pre post : Option (List (String × ℚ)))
    (sd : Option StrokeDict) (m : List (String × String)) (now : Nat) :
    (dl.log_stroke sid intent p pu t a pre post sd m now).get_total_stroke_count =
      dl.get_total_stroke_count + 1 ∧
    (dl.log_stroke sid intent p pu t a pre post sd m now).phase_logs ≠ [] := by
  rw [DecisionLogger.log_stroke]
  have hie : dl.phase_logs.isEmpty = false := by
    cases hl : dl.phase_logs with
    | nil => exact absurd hl hne
    | cons x xs => rfl
  simp only [hie, Bool.false_eq_true, if_false]
  constructor
  · exact modifyLast_total_add _ (fun l => by simp) dl.phase_logs hne
  · exact modifyLast_ne_nil _ _ hne

/-- Helper: `log_evaluation` and `close_phase` keep the total and the length. -/
theorem modifyCurrent_total_pres (dl : DecisionLogger)
    (f : PhaseDecisionLog → PhaseDecisionLog)
    (hf : ∀ l, (f l).strokes.length = l.strokes.length) :
    (dl.modifyCurrent f).get_total_stroke_count = dl.get_total_stroke_count ∧
    (dl.modifyCurrent f).phase_logs.length = dl.phase_logs.length := by
  constructor
  · exact modifyLast_total_pres f hf dl.phase_logs
  · exact modifyLast_length f dl.phase_logs

/-- Helper: `numExecutes` over a cons. -/
theorem numExecutes_cons (op : Op) (rest : List Op) :
    numExecutes (op :: rest) =
      (if op.isExecuteStroke then 1 else 0) + numExecutes rest := by
  rw [numExecutes, numExecutes, List.filter_cons]
  by_cases h : op.isExecuteStroke <;> simp [h, Nat.add_comm]

/-- Helper: each non-rollback operation's effect on the current phase is the
spec-side `simTransition`. -/
theorem step_current_phase (e : WorkflowExecutor) (op : Op) (now : Nat)
    (hop : op.isRollback = false) :
    (e.step op now).workflow_state.current_phase =
      simTransition e.workflow_state.current_phase op := by
  cases op with
  | executeStroke s i pu t a pre post u =>
    simp [WorkflowExecutor.step, WorkflowExecutor.execute_stroke,
      WorkflowState.record_stroke, simTransition]
  | transitionToPhase p r m ck =>
    by_cases hv : is_valid_transition e.workflow_state.current_phase p
    · rw [WorkflowExecutor.step, WorkflowExecutor.transition_to_phase,
        ws_transition_success e.workflow_state p r m 1 now hv]
      by_cases hck : ck
      · simp only [hck, if_true]
        rw [simTransition, if_pos hv, (create_checkpoint_frame _ _ _ _).1]
      · simp only [hck, Bool.false_eq_true, if_false]
        rw [simTransition, if_pos hv]
    · have hv' : is_valid_transition e.workflow_state.current_phase p = false := by
        simpa using hv
      rw [WorkflowExecutor.step, WorkflowExecutor.transition_to_phase,
        ws_transition_failure e.workflow_state p r m 1 now hv']
      rw [simTransition, if_neg (by simp [hv'])]
  | createCheckpoint d m =>
    simp only [WorkflowExecutor.step]
    rw [(create_checkpoint_frame e d m now).1]
    rfl
  | rollbackToCheckpoint cid => simp [Op.isRollback] at hop
  | rollbackToPhase p => simp [Op.isRollback] at hop
  | evalAndDecide m t =>
    simp [WorkflowExecutor.step, WorkflowExecutor.evaluate_and_decide_transition,
      simTransition]

/-- Helper: each non-rollback operation's effect on the total stroke count. -/
theorem step_total_strokes (e : WorkflowExecutor) (op : Op) (now : Nat)
    (hop : op.isRollback = false) :
    (e.step op now).workflow_state.total_strokes =
      e.workflow_state.total_strokes + (if op.isExecuteStroke then 1 else 0) := by
  cases op with
  | executeStroke s i pu t a pre post u =>
    simp [WorkflowExecutor.step, WorkflowExecutor.execute_stroke,
      WorkflowState.record_stroke, Op.isExecuteStroke]
  | transitionToPhase p r m ck =>
    by_cases hv : is_valid_transition e.workflow_state.current_phase p
    · rw [WorkflowExecutor.step, WorkflowExecutor.transition_to_phase,
        ws_transition_success e.workflow_state p r m 1 now hv]
      by_cases hck : ck
      · simp only [hck, if_true]
        rw [(create_checkpoint_frame _ _ _ _).1]
        simp [Op.isExecuteStroke]
      · simp only [hck, if_false]
        simp [Op.isExecuteStroke]
    · have hv' : is_valid_transition e.workflow_state.current_phase p = false := by
        simpa using hv
      rw [WorkflowExecutor.step, WorkflowExecutor.transition_to_phase,
        ws_transition_failure e.workflow_state p r m 1 now hv']
      simp [Op.isExecuteStroke]
  | createCheckpoint d m =>
    rw [WorkflowExecutor.step, (create_checkpoint_frame e d m now).1]
    simp [Op.isExecuteStroke]
  | rollbackToCheckpoint cid => simp [Op.isRollback] at hop
  | rollbackToPhase p => simp [Op.isRollback] at hop
  | evalAndDecide m t =>
    simp [WorkflowExecutor.step, WorkflowExecutor.evaluate_and_decide_transition,
      Op.isExecuteStroke]

/-- Helper: each non-rollback operation's effect on `get_phase_stroke_count`:
an executed stroke is tagged with the phase current at execution time. -/
theorem step_phase_count (e : WorkflowExecutor) (op : Op) (now : Nat)
    (hop : op.isRollback = false) (p : DrawingPhase) :
    (e.step op now).get_phase_stroke_count p =
      e.get_phase_stroke_count p +
        (if op.isExecuteStroke && (e.workflow_state.current_phase == p) then 1
         else 0) := by
  cases op with
  | executeStroke s i pu t a pre post u =>
    by_cases hc : e.workflow_state.current_phase = p
    · simp [WorkflowExecutor.step, WorkflowExecutor.execute_stroke,
        WorkflowExecutor.get_phase_stroke_count, List.filter_append,
        Op.isExecuteStroke, hc]
    · simp [WorkflowExecutor.step, WorkflowExecutor.execute_stroke,
        WorkflowExecutor.get_phase_stroke_count, List.filter_append,
        Op.isExecuteStroke, hc]
  | transitionToPhase p2 r m ck =>
    by_cases hv : is_valid_transition e.workflow_state.current_phase p2
    · rw [WorkflowExecutor.step, WorkflowExecutor.transition_to_phase,
        ws_transition_success e.workflow_state p2 r m 1 now hv]
      by_cases hck : ck
      · simp only [hck, if_true]
        rw [WorkflowExecutor.get_phase_stroke_count,
          (create_checkpoint_frame _ _ _ _).2.2.1]
        simp [WorkflowExecutor.get_phase_stroke_count, Op.isExecuteStroke]
      · simp only [hck, if_false]
        simp [WorkflowExecutor.get_phase_stroke_count, Op.isExecuteStroke]
    · have hv' : is_valid_transition e.workflow_state.current_phase p2 = false := by
        simpa using hv
      rw [WorkflowExecutor.step, WorkflowExecutor.transition_to_phase,
        ws_transition_failure e.workflow_state p2 r m 1 now hv']
      simp [Op.isExecuteStroke]
  | createCheckpoint d m =>
    rw [WorkflowExecutor.step, WorkflowExecutor.get_phase_stroke_count,
      (create_checkpoint_frame e d m now).2.2.1]
    simp [WorkflowExecutor.get_phase_stroke_count, Op.isExecuteStroke]
  | rollbackToCheckpoint cid => simp [Op.isRollback] at hop
  | rollbackToPhase p2 => simp [Op.isRollback] at hop
  | evalAndDecide m t =>
    simp [WorkflowExecutor.step, WorkflowExecutor.evaluate_and_decide_transition,
      WorkflowExecutor.get_phase_stroke_count, Op.isExecuteStroke]

/-- Helper: each non-rollback operation keeps the logger ready and adds one
logged stroke exactly for `execute_stroke`. -/
theorem step_logger (e : WorkflowExecutor) (op : Op) (now : Nat)
    (hop : op.isRollback = false) (hr : loggerReady e = true) :
    loggerReady (e.step op now) = true ∧
    loggerTotal (e.step op now) =
      loggerTotal e + (if op.isExecuteStroke then 1 else 0) := by
  cases hdl : e.decision_logger with
  | none => rw [loggerReady, hdl] at hr; simp at hr
  | some dl =>
    have hne : dl.phase_logs ≠ [] := by
      rw [loggerReady, hdl] at hr
      simp only [Bool.not_eq_eq_eq_not, Bool.not_true] at hr
      intro hc
      rw [hc] at hr
      simp at hr
    cases op with
    | executeStroke s i pu t a pre post u =>
      clear hop hr
      have hls := log_stroke_total dl hne u
        (match i with
          | some i0 => i0
          | none =>
            (PRIMARY_INTENT e.workflow_state.current_phase).getD StrokeIntent.gesture)
        e.workflow_state.current_phase pu t a pre post
        (some { payload := s.payload,
                workflow := some
                  { intent :=
                      (match i with
                        | some i0 => i0
                        | none =>
                          (PRIMARY_INTENT e.workflow_state.current_phase).getD
                            StrokeIntent.gesture)
                    phase := e.workflow_state.current_phase
                    purpose := pu
                    task_id := t
                    action_id := a
                    confidence := 1
                    refinement_pass := e.workflow_state.iteration_in_phase
                    evaluation_score := none }
                stroke_id := some u
                meta_rest := s.meta_rest }) [] now
      constructor
      · simp only [WorkflowExecutor.step, WorkflowExecutor.execute_stroke, hdl,
          Option.map_some', loggerReady, Stroke.to_dict]
        simpa using hls.2
      · simp only [WorkflowExecutor.step, WorkflowExecutor.execute_stroke, hdl,
          Option.map_some', loggerTotal, Op.isExecuteStroke, if_true,
          Stroke.to_dict]
        rw [hls.1]
    | transitionToPhase p r m ck =>
      by_cases hv : is_valid_transition e.workflow_state.current_phase p
      · rw [WorkflowExecutor.step, WorkflowExecutor.transition_to_phase,
          ws_transition_success e.workflow_state p r m 1 now hv]
        have hcl := modifyCurrent_total_pres dl
          (fun cur => cur.close_phase r now) (fun l => by rw [close_phase_strokes])
        have hst := start_phase_total (dl.close_phase r now) p [] now
        by_cases hck : ck
        · simp only [hck, if_true]
          constructor
          · rw [loggerReady, (create_checkpoint_frame _ _ _ _).2.1]
            simp only [hdl, Option.map_some']
            cases hl : ((dl.close_phase r now).start_phase p [] now).phase_logs with
            | nil => exact absurd hl hst.2
            | cons x xs => simp [hl]
          · rw [loggerTotal, (create_checkpoint_frame _ _ _ _).2.1]
            simp only [hdl, Option.map_some']
            rw [hst.1, show (DecisionLogger.close_phase dl r now) =
              dl.modifyCurrent (fun cur => cur.close_phase r now) from rfl, hcl.1]
            simp [loggerTotal, hdl, Op.isExecuteStroke]
        · simp only [hck, Bool.false_eq_true, if_false]
          constructor
          · rw [loggerReady]
            simp only [hdl, Option.map_some']
            cases hl : ((dl.close_phase r now).start_phase p [] now).phase_logs with
            | nil => exact absurd hl hst.2
            | cons x xs => simp [hl]
          · rw [loggerTotal]
            simp only [hdl, Option.map_some']
            rw [hst.1, show (DecisionLogger.close_phase dl r now) =
              dl.modifyCurrent (fun cur => cur.close_phase r now) from rfl, hcl.1]
            simp [loggerTotal, hdl, Op.isExecuteStroke]
      · have hv' : is_valid_transition e.workflow_state.current_phase p = false := by
          simpa using hv
        rw [WorkflowExecutor.step, WorkflowExecutor.transition_to_phase,
          ws_transition_failure e.workflow_state p r m 1 now hv']
        exact ⟨hr, by simp [Op.isExecuteStroke]⟩
    | createCheckpoint d m =>
      simp only [WorkflowExecutor.step]
      constructor
      · rw [loggerReady, (create_checkpoint_frame e d m now).2.1, ← loggerReady]
        exact hr
      · rw [loggerTotal, (create_checkpoint_frame e d m now).2.1, ← loggerTotal]
        simp [Op.isExecuteStroke]
    | rollbackToCheckpoint cid => simp [Op.isRollback] at hop
    | rollbackToPhase p => simp [Op.isRollback] at hop
    | evalAndDecide m t =>
      have hev := modifyCurrent_total_pres dl
        (fun cur =>
          { cur with phase_evaluations := cur.phase_evaluations ++ [(now, m)] })
        (fun l => rfl)
      constructor
      · simp only [WorkflowExecutor.step,
          WorkflowExecutor.evaluate_and_decide_transition, hdl, Option.map_some',
          loggerReady]
        have hlen := hev.2
        cases hl : (dl.log_evaluation m now).phase_logs with
        | nil =>
          exfalso
          apply hne
          rw [DecisionLogger.log_evaluation] at hl
          have := modifyLast_ne_nil
            (fun cur =>
              { cur with phase_evaluations := cur.phase_evaluations ++ [(now, m)] })
            dl.phase_logs hne
          exact absurd hl this
        | cons x xs => simp [hl]
      · simp only [WorkflowExecutor.step,
          WorkflowExecutor.evaluate_and_decide_transition, hdl, Option.map_some',
          loggerTotal, Op.isExecuteStroke]
        rw [show (DecisionLogger.log_evaluation dl m now) =
          dl.modifyCurrent
            (fun cur =>
              { cur with phase_evaluations := cur.phase_evaluations ++ [(now, m)] })
          from rfl, hev.1]
        simp

/-- Helper: counting over a rollback-free run, relative to any ready start
state. -/
theorem runAux_counts (ops : List Op) :
    ∀ (e : WorkflowExecutor) (now : Nat),
      (∀ op ∈ ops, op.isRollback = false) → loggerReady e = true →
      loggerReady (e.runAux ops now) = true ∧
      (e.runAux ops now).workflow_state.total_strokes =
        e.workflow_state.total_strokes + numExecutes ops ∧
      loggerTotal (e.runAux ops now) = loggerTotal e + numExecutes ops ∧
      ∀ p, (e.runAux ops now).get_phase_stroke_count p =
        e.get_phase_stroke_count p +
          specPhaseStrokeCount p e.workflow_state.current_phase ops := by
  induction ops with
  | nil =>
    intro e now _ hr
    refine ⟨hr, by simp [WorkflowExecutor.runAux, numExecutes],
      by simp [WorkflowExecutor.runAux, numExecutes], ?_⟩
    intro p
    simp [WorkflowExecutor.runAux, specPhaseStrokeCount]
  | cons op rest ih =>
    intro e now hops hr
    have hop : op.isRollback = false := hops op (List.mem_cons_self op rest)
    have hrest : ∀ o ∈ rest, o.isRollback = false :=
      fun o ho => hops o (List.mem_cons_of_mem _ ho)
    have hsl := step_logger e op now hop hr
    have hih := ih (e.step op now) (now + 1) hrest hsl.1
    rw [WorkflowExecutor.runAux]
    refine ⟨hih.1, ?_, ?_, ?_⟩
    · rw [hih.2.1, step_total_strokes e op now hop, numExecutes_cons]
      omega
    · rw [hih.2.2.1, hsl.2, numExecutes_cons]
      omega
    · intro p
      rw [hih.2.2.2 p, step_phase_count e op now hop p,
        step_current_phase e op now hop, specPhaseStrokeCount]
      omega

/-- C10 counterexample: execute one stroke in Sketch, then make the valid
self-loop transition Sketch→Sketch.  The most recent transition into the
current phase (Sketch) is that self-loop; no stroke was recorded after it
(`phase_stroke_count`, which the transition reset, is 0), yet
`get_phase_stroke_count(Sketch)` returns 1 — it counts the stroke from the
earlier visit, contradicting the claim's "only since the most recent
transition". -/
theorem C10_phase_count_spans_visits :
    (runOps [Op.executeStroke blankStroke none "" none none none none "u1",
      Op.transitionToPhase .sketch "again" [] false]).workflow_state.current_phase =
        DrawingPhase.sketch ∧
    (runOps [Op.executeStroke blankStroke none "" none none none none "u1",
      Op.transitionToPhase .sketch "again" [] false]).workflow_state.phase_stroke_count = 0 ∧
    (runOps [Op.executeStroke blankStroke none "" none none none none "u1",
      Op.transitionToPhase .sketch "again" [] false]).get_phase_stroke_count .sketch = 1 := by
  refine ⟨by decide, by decide, by decide⟩

/-- C10 amended: after any rollback-free operation sequence on a freshly
constructed orchestrator, the workflow state's total stroke count and the
decision logger's total logged stroke count both equal the number of
`execute_stroke` calls, and `get_phase_stroke_count(p)` counts the strokes
executed during **all** visits to phase `p` (not only those since the most
recent transition into it), as computed by the spec-side phase simulation. -/
theorem C10_stroke_counts (ops : List Op)
    (hops : ∀ op ∈ ops, op.isRollback = false) :
    (runOps ops).workflow_state.total_strokes = numExecutes ops ∧
    loggerTotal (runOps ops) = numExecutes ops ∧
    ∀ p, (runOps ops).get_phase_stroke_count p =
      specPhaseStrokeCount p .sketch ops := by
  have h := runAux_counts ops (WorkflowExecutor.init canvas0 10 true 0) 1 hops
    (by decide)
  refine ⟨?_, ?_, ?_⟩
  · have h1 := h.2.1
    rw [show (WorkflowExecutor.init canvas0 10 true 0).workflow_state.total_strokes = 0
      from rfl] at h1
    simpa [runOps] using h1
  · have h1 := h.2.2.1
    rw [show loggerTotal (WorkflowExecutor.init canvas0 10 true 0) = 0 from rfl] at h1
    simpa [runOps] using h1
  · intro p
    have h1 := h.2.2.2 p
    rw [show (WorkflowExecutor.init canvas0 10 true 0).get_phase_stroke_count p = 0
      from rfl,
      show (WorkflowExecutor.init canvas0 10 true 0).workflow_state.current_phase =
        DrawingPhase.sketch from rfl] at h1
    simpa [runOps] using h1

/-- Witness for C10 amended at a concrete input: two strokes around a
transition into Refinement. -/
theorem C10_stroke_counts_witness :
    (runOps [Op.executeStroke blankStroke none "" none none none none "u1",
      Op.transitionToPhase .refinement "go" [] true,
      Op.executeStroke blankStroke none "" none none none none "u2"]).workflow_state.total_strokes = 2 ∧
    loggerTotal
      (runOps [Op.executeStroke blankStroke none "" none none none none "u1",
        Op.transitionToPhase .refinement "go" [] true,
        Op.executeStroke blankStroke none "" none none none none "u2"]) = 2 ∧
    (runOps [Op.executeStroke blankStroke none "" none none none none "u1",
      Op.transitionToPhase .refinement "go" [] true,
      Op.executeStroke blankStroke none "" none none none none "u2"]).get_phase_stroke_count
        .refinement = 1 := by
  have h := C10_stroke_counts
    [Op.executeStroke blankStroke none "" none none none none "u1",
      Op.transitionToPhase .refinement "go" [] true,
      Op.executeStroke blankStroke none "" none none none none "u2"]
    (by intro op hop; fin_cases hop <;> rfl)
  exact ⟨h.1, h.2.1, by rw [h.2.2 .refinement]; decide⟩
